import Mathlib

/-!
# rspack-binding: the adapter module `lib/index.js` and the two example build scripts

A shallow embedding of the JavaScript glue of the repository.

* `lib/index.js` is a module body: a straight-line sequence of effects
  (an environment variable write, `require` calls, two registration calls,
  two `createNativePlugin` calls, two `Object.defineProperty` calls).  It is
  embedded as the function `load` over an explicit `State`, with every piece
  of code that lives outside the repository (Node's `require`,
  `require.resolve`, `path.dirname`, the native binding, `@rspack/core`)
  taken as a field of the parameter `World`.
* `examples/*/build.js` contribute the callback handed to `compiler.run` and,
  for `use-loader`, the module rule with its serialized loader options.
-/

namespace RspackBinding

/-! ## Values -/

/-- JavaScript values that flow through the scripts.  Objects and functions are
references (`obj id`); two references are the same object exactly when the
ids are equal.  Numbers are the integer-valued ones plus `NaN`. -/
inductive Value where
  | undefined
  | null
  | bool (b : Bool)
  | num (n : Int)
  | nan
  | str (s : String)
  | obj (id : Nat)
  deriving DecidableEq, Repr

/-- ECMAScript `ToBoolean`: what `if (v)` tests. -/
def Value.truthy : Value → Bool
  | .undefined => false
  | .null => false
  | .bool b => b
  | .num n => n != 0
  | .nan => false
  | .str s => s != ""
  | .obj _ => true

/-- What a JavaScript evaluation can throw: a `TypeError` raised by the
language itself, or a value thrown by code outside the repository. -/
inductive JsError where
  | typeError
  | thrown (v : Value)
  deriving DecidableEq, Repr

/-! ## Ordinary objects and `Object.defineProperty` -/

/-- An own property of an ordinary object: a data property or an accessor
property, with its attributes. -/
inductive Property where
  | data (value : Value) (writable enumerable configurable : Bool)
  | accessor (get set : Value) (enumerable configurable : Bool)
  deriving DecidableEq, Repr

def Property.enumerable : Property → Bool
  | .data _ _ e _ => e
  | .accessor _ _ e _ => e

/-- The `[[Value]]` attribute of a data property. -/
def Property.value? : Property → Option Value
  | .data v _ _ _ => some v
  | .accessor _ _ _ _ => none

/-- An ordinary object: its own string-keyed properties in creation order, and
its `[[Extensible]]` flag. -/
structure Obj where
  props : List (String × Property)
  extensible : Bool
  deriving DecidableEq, Repr

/-- `[[GetOwnProperty]]`. -/
def getOwn : List (String × Property) → String → Option Property
  | [], _ => none
  | (k, p) :: rest, key => if k = key then some p else getOwn rest key

/-- Replace the property stored under `key`, keeping its position. -/
def replaceOwn : List (String × Property) → String → Property → List (String × Property)
  | [], _, _ => []
  | (k, p) :: rest, key, q =>
    if k = key then (k, q) :: rest else (k, p) :: replaceOwn rest key q

def Obj.getOwnProperty (o : Obj) (key : String) : Option Property :=
  getOwn o.props key

/-- `Object.keys`-style listing: the enumerable own keys, in order. -/
def Obj.enumerableKeys (o : Obj) : List String :=
  (o.props.filter (fun kp => kp.2.enumerable)).map (fun kp => kp.1)

/-- All own keys, in order. -/
def Obj.ownKeys (o : Obj) : List String :=
  o.props.map (fun kp => kp.1)

/-- `Object.defineProperty(o, key, { value: v })`: the descriptor has the
field `value` and no other.  This is ECMAScript's
`ValidateAndApplyPropertyDescriptor` specialised to that descriptor; `none`
is the `TypeError` that `Object.defineProperty` throws when the definition is
rejected.

* no current property: rejected when the object is not extensible; otherwise a
  data property is created whose absent attributes default to `false`;
* current property not configurable: rejected when it is an accessor, or when
  it is a non-writable data property holding a different value;
* otherwise the value is stored; a data property keeps its attributes, an
  accessor property becomes a data property that keeps `enumerable` and
  `configurable` and gets `writable = false`. -/
def Obj.defineValue (o : Obj) (key : String) (v : Value) : Option Obj :=
  match getOwn o.props key with
  | none =>
    if o.extensible then
      some { o with props := o.props ++ [(key, Property.data v false false false)] }
    else none
  | some (Property.data cur w e c) =>
    if !c && !w && cur != v then none
    else some { o with props := replaceOwn o.props key (Property.data v w e c) }
  | some (Property.accessor _ _ e c) =>
    if !c then none
    else some { o with props := replaceOwn o.props key (Property.data v false e c) }

/-- The assignment `o[key] = v` (ECMAScript `OrdinarySet` with `o` itself as the
receiver), as far as the own properties of `o` decide it.  The `Bool` is the
success flag: `false` is a silent no-op in sloppy code and a `TypeError` in
strict code.

* own data property: stored when writable, refused otherwise;
* own accessor property: the setter runs (outside this model) and the property
  table is left as it is; without a setter the assignment is refused;
* no own property (and none inherited): a fresh writable, enumerable,
  configurable data property is created when the object is extensible. -/
def Obj.assign (o : Obj) (key : String) (v : Value) : Obj × Bool :=
  match getOwn o.props key with
  | some (Property.data _ w e c) =>
    if w then ({ o with props := replaceOwn o.props key (Property.data v w e c) }, true)
    else (o, false)
  | some (Property.accessor _ set _ _) => (o, set != Value.undefined)
  | none =>
    if o.extensible then
      ({ o with props := o.props ++ [(key, Property.data v true true true)] }, true)
    else (o, false)

/-! ## The module body of `lib/index.js` -/

/-- The two function literals of `lib/index.js`, both
`function (options) { return options; }`: the second argument of the
`createNativePlugin` call for `ManifestPlugin` (lines 37-39) and for
`CompilationLoaderPlugin` (lines 68-70). -/
inductive Resolver where
  | manifestResolver
  | compilationLoaderResolver
  deriving DecidableEq, Repr

/-- An externally visible step of the module body. -/
inductive Event where
  /-- The call `require(name)`: the module `name` is loaded. -/
  | requireModule (name : String)
  /-- The call `require.resolve(name)`: the module is located, not loaded. -/
  | resolve (name : String)
  /-- The write `process.env[key] = value`. -/
  | setEnv (key value : String)
  /-- The call `binding[fn](...args)`. -/
  | call (fn : String) (args : List Value)
  /-- The call `core.experiments.createNativePlugin(name, resolver)`. -/
  | createNativePlugin (name : String) (resolver : Resolver)
  /-- The call `Object.defineProperty(core, key, { value })`. -/
  | defineProperty (key : String) (value : Value)
  deriving DecidableEq, Repr

/-- Everything the module body calls that is not code of the repository.  Each
call either returns or throws; none of them touches `process.env` or the own
properties of the core export during the load. -/
structure World where
  /-- Node's `require.resolve`: the path of the module, or a throw. -/
  resolve : String → Except JsError String
  /-- Node's `path.dirname`. -/
  dirname : String → String
  /-- Node's `require` for the two packages: returns the module export (a
  reference), or throws. -/
  require : String → Except JsError Value
  /-- The native `binding.registerCompilationLoaderPlugin`. -/
  registerCompilationLoaderPlugin : List Value → Except JsError Value
  /-- The native `binding.registerManifestPlugin`. -/
  registerManifestPlugin : List Value → Except JsError Value
  /-- The function `core.experiments.createNativePlugin` of `@rspack/core`. -/
  createNativePlugin : String → Resolver → Except JsError Value

/-- The state the module body acts on: `process.env`, the object that
`@rspack/core` exports, and the log of steps taken so far. -/
structure State where
  env : String → Option String
  core : Obj
  trace : List Event

def State.emit (s : State) (e : Event) : State :=
  { s with trace := s.trace ++ [e] }

def State.setEnv (s : State) (key value : String) : State :=
  { s with env := fun k => if k = key then some value else s.env k }

/-- The state in which a load starts: the environment and the core export as
they are, nothing logged yet. -/
def initialState (env : String → Option String) (core : Obj) : State :=
  { env := env, core := core, trace := [] }

/-- Calling one of the two resolver function literals with the argument list
`args`: the parameter `options` is the first argument (`undefined` when there
is none) and the body is `return options;`.  The state is threaded through to
show what the body does to it. -/
def callResolver : Resolver → List Value → State → Except JsError Value × State
  | Resolver.manifestResolver, args, s =>
    let options := args.headD Value.undefined
    (Except.ok options, s)
  | Resolver.compilationLoaderResolver, args, s =>
    let options := args.headD Value.undefined
    (Except.ok options, s)

/-- The last step of `createBuiltinPlugin(name, options)` in `@rspack/core`, which
builds the record `{ name, options: options ?? false }` that is handed to the
native binding: `undefined` and `null` are replaced by `false`, every other
value is passed on as it is.  This is code of the package `@rspack/core`, not
of this repository. -/
def nullishToFalse : Value → Value
  | Value.undefined => Value.bool false
  | Value.null => Value.bool false
  | v => v

/-- What the native side receives for `new Plugin(...args)`, where `Plugin` is
the class `createNativePlugin(name, resolver)` returned.  As the comments of
`lib/index.js` (lines 31-32 and 62-63) put it, the arguments of the
constructor are passed to the resolver and the return value of the resolver
is used to initialise the plugin on the native side; `pack` is what
`@rspack/core` does to that return value on the way (`nullishToFalse` in the
package as published).  The result is the plugin name and its options. -/
def nativeOptions (pack : Value → Value) (name : String) (r : Resolver) (args : List Value)
    (s : State) : Except JsError (String × Value) × State :=
  match callResolver r args s with
  | (Except.ok options, s1) => (Except.ok (name, pack options), s1)
  | (Except.error e, s1) => (Except.error e, s1)

/-- Lines 42-44 and 73-75: `Object.defineProperty(core, key, { value: v })`. -/
def defineOnCore (s : State) (key : String) (v : Value) : Except JsError Unit × State :=
  let s1 := s.emit (Event.defineProperty key v)
  match s1.core.defineValue key v with
  | none => (Except.error JsError.typeError, s1)
  | some o => (Except.ok (), { s1 with core := o })

/-- Lines 35-44: create the `ManifestPlugin` wrapper and define it on `core`;
lines 66-77: the same for `CompilationLoaderPlugin`, then
`module.exports = core`.  `coreRef` is the value of the constant `core`. -/
def definePlugins (w : World) (coreRef : Value) (s : State) : Except JsError Value × State :=
  let s1 := s.emit (Event.createNativePlugin "ManifestPlugin" Resolver.manifestResolver)
  match w.createNativePlugin "ManifestPlugin" Resolver.manifestResolver with
  | Except.error e => (Except.error e, s1)
  | Except.ok manifestPlugin =>
    match defineOnCore s1 "ManifestPlugin" manifestPlugin with
    | (Except.error e, s2) => (Except.error e, s2)
    | (Except.ok (), s2) =>
      let s3 := s2.emit
        (Event.createNativePlugin "CompilationLoaderPlugin" Resolver.compilationLoaderResolver)
      match w.createNativePlugin "CompilationLoaderPlugin"
          Resolver.compilationLoaderResolver with
      | Except.error e => (Except.error e, s3)
      | Except.ok compilationLoaderPlugin =>
        match defineOnCore s3 "CompilationLoaderPlugin" compilationLoaderPlugin with
        | (Except.error e, s4) => (Except.error e, s4)
        | (Except.ok (), s4) => (Except.ok coreRef, s4)

/-- Lines 5-13: load the binding, make the two registration calls, load
`@rspack/core`; then the rest of the module. -/
def registerAndDefine (w : World) (s : State) : Except JsError Value × State :=
  let s1 := s.emit (Event.requireModule "@rspack-template/binding")
  match w.require "@rspack-template/binding" with
  | Except.error e => (Except.error e, s1)
  | Except.ok _binding =>
    let s2 := s1.emit (Event.call "registerCompilationLoaderPlugin" [])
    match w.registerCompilationLoaderPlugin [] with
    | Except.error e => (Except.error e, s2)
    | Except.ok _ =>
      let s3 := s2.emit (Event.call "registerManifestPlugin" [])
      match w.registerManifestPlugin [] with
      | Except.error e => (Except.error e, s3)
      | Except.ok _ =>
        let s4 := s3.emit (Event.requireModule "@rspack/core")
        match w.require "@rspack/core" with
        | Except.error e => (Except.error e, s4)
        | Except.ok coreRef => definePlugins w coreRef s4

/-- The whole module body of `lib/index.js`.  The result is the value of
`module.exports` when the body runs to its end, or what it threw.

Lines 1-3: the right-hand side is evaluated first, `require('node:path')`
and then the argument `require.resolve('@rspack-template/binding')`; only
when both have returned is `process.env.RSPACK_BINDING` written. -/
def load (w : World) (s : State) : Except JsError Value × State :=
  let s1 := s.emit (Event.requireModule "node:path")
  let s2 := s1.emit (Event.resolve "@rspack-template/binding")
  match w.resolve "@rspack-template/binding" with
  | Except.error e => (Except.error e, s2)
  | Except.ok p =>
    let s3 := (s2.setEnv "RSPACK_BINDING" (w.dirname p)).emit
      (Event.setEnv "RSPACK_BINDING" (w.dirname p))
    registerAndDefine w s3

/-- Loading the module from scratch: `env` is `process.env` before the load and
`core` is the object `require('@rspack/core')` hands out, as that package built
it. -/
def loadModule (w : World) (env : String → Option String) (core : Obj) :
    Except JsError Value × State :=
  load w (initialState env core)

/-! ## `examples/use-plugin/build.js` and `examples/use-loader/build.js`: the `compiler.run` callback -/

/-- A step of the callback that can be observed from outside. -/
inductive CallbackEvent where
  /-- The call `console.error(v)`. -/
  | consoleError (v : Value)
  /-- The property read `stats[name]` on the value `stats`. -/
  | readProperty (stats : Value) (name : String)
  /-- The call `stats.toString({ colors: true })`. -/
  | statsToString (stats : Value)
  /-- The call `console.info(v)`. -/
  | consoleInfo (v : Value)
  deriving DecidableEq, Repr

/-- The body shared by the two callbacks, which are the same text:
```
(err, stats) => {
  if (err) {
    console.error(err);
  }
  console.info(stats.toString({ colors: true }));
}
```
`toStringOf` is the method `toString` that a non-nullish `stats` carries (code
of the bundler).  Reading a property of `undefined` or `null` throws a
`TypeError`.  The `if` has no `else` and its block does not return, so the
last statement runs on every call. -/
def callbackBody (toStringOf : Value → Except JsError Value) (err stats : Value) :
    Except JsError Unit × List CallbackEvent :=
  let t1 := if err.truthy then [CallbackEvent.consoleError err] else []
  let t2 := t1 ++ [CallbackEvent.readProperty stats "toString"]
  match stats with
  | Value.undefined => (Except.error JsError.typeError, t2)
  | Value.null => (Except.error JsError.typeError, t2)
  | _ =>
    let t3 := t2 ++ [CallbackEvent.statsToString stats]
    match toStringOf stats with
    | Except.error e => (Except.error e, t3)
    | Except.ok text => (Except.ok (), t3 ++ [CallbackEvent.consoleInfo text])

/-- The callback of `examples/use-plugin/build.js`, lines 17-22. -/
def usePluginCallback (toStringOf : Value → Except JsError Value) (err stats : Value) :
    Except JsError Unit × List CallbackEvent :=
  callbackBody toStringOf err stats

/-- The callback of `examples/use-loader/build.js`, lines 51-56. -/
def useLoaderCallback (toStringOf : Value → Except JsError Value) (err stats : Value) :
    Except JsError Unit × List CallbackEvent :=
  callbackBody toStringOf err stats

/-! ## `examples/use-loader/build.js`: the module rule and its serialized options -/

/-- JSON documents: the values `JSON.stringify` writes and `JSON.parse` reads,
numbers left out (the payload of the example has none). -/
inductive Json where
  | null
  | bool (b : Bool)
  | str (s : String)
  | arr (items : List Json)
  | obj (members : List (String × Json))
  deriving Repr

/-- Lower-case hexadecimal digit. -/
def hexDigit (n : Nat) : Char :=
  if n < 10 then Char.ofNat (48 + n) else Char.ofNat (87 + n)

/-- The body of ECMAScript `QuoteJSONString`: the quotation mark, the
backslash and the control characters are escaped. -/
def quoteChars : List Char → List Char
  | [] => []
  | c :: cs =>
    (if c = '"' then ['\\', '"']
     else if c = '\\' then ['\\', '\\']
     else if c.toNat = 8 then ['\\', 'b']
     else if c.toNat = 9 then ['\\', 't']
     else if c.toNat = 10 then ['\\', 'n']
     else if c.toNat = 12 then ['\\', 'f']
     else if c.toNat = 13 then ['\\', 'r']
     else if c.toNat < 32 then
       ['\\', 'u', '0', '0', hexDigit (c.toNat / 16), hexDigit (c.toNat % 16)]
     else [c]) ++ quoteChars cs

def quoteString (s : String) : List Char :=
  '"' :: quoteChars s.data ++ ['"']

mutual
/-- The text `JSON.stringify` writes (no indentation argument): members in
property order, separated by commas, no white space. -/
def stringifyChars : Json → List Char
  | Json.null => ['n', 'u', 'l', 'l']
  | Json.bool true => ['t', 'r', 'u', 'e']
  | Json.bool false => ['f', 'a', 'l', 's', 'e']
  | Json.str s => quoteString s
  | Json.arr items => '[' :: stringifyItems items ++ [']']
  | Json.obj members => '\x7b' :: stringifyMembers members ++ ['\x7d']
def stringifyItems : List Json → List Char
  | [] => []
  | [j] => stringifyChars j
  | j :: rest => stringifyChars j ++ ',' :: stringifyItems rest
def stringifyMembers : List (String × Json) → List Char
  | [] => []
  | [(k, j)] => quoteString k ++ ':' :: stringifyChars j
  | (k, j) :: rest => quoteString k ++ ':' :: stringifyChars j ++ ',' :: stringifyMembers rest
end

/-- `JSON.stringify(j)`. -/
def jsonStringify (j : Json) : String :=
  String.mk (stringifyChars j)

/-- Skip JSON white space. -/
def skipWs : List Char → List Char
  | [] => []
  | c :: cs =>
    if c = ' ' ∨ c.toNat = 9 ∨ c.toNat = 10 ∨ c.toNat = 13 then skipWs cs else c :: cs

/-- Value of a hexadecimal digit. -/
def hexValue (c : Char) : Option Nat :=
  if '0' ≤ c ∧ c ≤ '9' then some (c.toNat - 48)
  else if 'a' ≤ c ∧ c ≤ 'f' then some (c.toNat - 87)
  else if 'A' ≤ c ∧ c ≤ 'F' then some (c.toNat - 55)
  else none

/-- The characters of a JSON string after its opening quotation mark, up to
and including the closing one; `acc` holds the decoded characters so far, last
first.  A `\u` escape must name a code point outside the surrogate range. -/
def parseStringChars : List Char → List Char → Option (String × List Char)
  | [], _ => none
  | '"' :: rest, acc => some (String.mk acc.reverse, rest)
  | '\\' :: 'u' :: a :: b :: c :: d :: rest, acc =>
    match hexValue a, hexValue b, hexValue c, hexValue d with
    | some x, some y, some z, some t =>
      let n := ((x * 16 + y) * 16 + z) * 16 + t
      if 0xD800 ≤ n ∧ n ≤ 0xDFFF then none
      else parseStringChars rest (Char.ofNat n :: acc)
    | _, _, _, _ => none
  | '\\' :: e :: rest, acc =>
    if e = '"' then parseStringChars rest ('"' :: acc)
    else if e = '\\' then parseStringChars rest ('\\' :: acc)
    else if e = '/' then parseStringChars rest ('/' :: acc)
    else if e = 'b' then parseStringChars rest (Char.ofNat 8 :: acc)
    else if e = 't' then parseStringChars rest (Char.ofNat 9 :: acc)
    else if e = 'n' then parseStringChars rest (Char.ofNat 10 :: acc)
    else if e = 'f' then parseStringChars rest (Char.ofNat 12 :: acc)
    else if e = 'r' then parseStringChars rest (Char.ofNat 13 :: acc)
    else none
  | c :: rest, acc =>
    if c.toNat < 32 ∨ c = '\\' then none else parseStringChars rest (c :: acc)

mutual
/-- Recursive-descent reader for one JSON value; `fuel` bounds the nesting and
the number of elements read. -/
def parseValue : Nat → List Char → Option (Json × List Char)
  | 0, _ => none
  | fuel + 1, cs =>
    match skipWs cs with
    | 'n' :: 'u' :: 'l' :: 'l' :: rest => some (Json.null, rest)
    | 't' :: 'r' :: 'u' :: 'e' :: rest => some (Json.bool true, rest)
    | 'f' :: 'a' :: 'l' :: 's' :: 'e' :: rest => some (Json.bool false, rest)
    | '"' :: rest =>
      match parseStringChars rest [] with
      | some (s, rest1) => some (Json.str s, rest1)
      | none => none
    | '[' :: rest =>
      match skipWs rest with
      | ']' :: rest1 => some (Json.arr [], rest1)
      | _ =>
        match parseItems fuel rest with
        | some (items, rest1) => some (Json.arr items, rest1)
        | none => none
    | '\x7b' :: rest =>
      match skipWs rest with
      | '\x7d' :: rest1 => some (Json.obj [], rest1)
      | _ =>
        match parseMembers fuel rest with
        | some (members, rest1) => some (Json.obj members, rest1)
        | none => none
    | _ => none
/-- The elements of a non-empty array, up to and including the closing bracket. -/
def parseItems : Nat → List Char → Option (List Json × List Char)
  | 0, _ => none
  | fuel + 1, cs =>
    match parseValue fuel cs with
    | none => none
    | some (j, rest) =>
      match skipWs rest with
      | ',' :: rest1 =>
        match parseItems fuel rest1 with
        | some (js, rest2) => some (j :: js, rest2)
        | none => none
      | ']' :: rest1 => some ([j], rest1)
      | _ => none
/-- The members of a non-empty object, up to and including the closing brace. -/
def parseMembers : Nat → List Char → Option (List (String × Json) × List Char)
  | 0, _ => none
  | fuel + 1, cs =>
    match skipWs cs with
    | '"' :: rest =>
      match parseStringChars rest [] with
      | none => none
      | some (k, rest1) =>
        match skipWs rest1 with
        | ':' :: rest2 =>
          match parseValue fuel rest2 with
          | none => none
          | some (j, rest3) =>
            match skipWs rest3 with
            | ',' :: rest4 =>
              match parseMembers fuel rest4 with
              | some (ms, rest5) => some ((k, j) :: ms, rest5)
              | none => none
            | '\x7d' :: rest4 => some ([(k, j)], rest4)
            | _ => none
        | _ => none
    | _ => none
end

/-- `JSON.parse(text)`: one value, then nothing but white space; `none` is the
`SyntaxError`. -/
def jsonParse (text : String) : Option Json :=
  match parseValue (text.length + 1) text.data with
  | some (j, rest) => if skipWs rest = [] then some j else none
  | none => none

/-- Member lookup `j[key]` on a parsed document. -/
def Json.get? : Json → String → Option Json
  | Json.obj members, key => (members.find? (fun kv => kv.1 = key)).map (fun kv => kv.2)
  | _, _ => none

/-- The own keys of a parsed object, in order. -/
def Json.keys : Json → List String
  | Json.obj members => members.map (fun kv => kv.1)
  | _ => []

/-- An entry of a rule's `use` array. -/
structure UseEntry where
  loader : String
  options : Value
  deriving DecidableEq, Repr

/-- A module rule; `test` holds the source text of the regular expression. -/
structure Rule where
  test : String
  use : List UseEntry
  deriving DecidableEq, Repr

/-- The object literal handed to `JSON.stringify` in
`examples/use-loader/build.js`, lines 20-36. -/
def useLoaderPayload : Json :=
  Json.obj [
    ("swc_options", Json.obj [
      ("config", Json.obj [
        ("jsc", Json.obj [
          ("parser", Json.obj [
            ("syntax", Json.str "ecmascript"),
            ("jsx", Json.bool false)]),
          ("transform", Json.obj []),
          ("target", Json.str "es2015")]),
        ("module", Json.obj [
          ("type", Json.str "commonjs")])])])]

/-- The array `module.rules` of `examples/use-loader/build.js`, lines 13-40. -/
def useLoaderRules : List Rule :=
  [ { test := "\\.js$",
      use := [
        { loader := "builtin:compilation-loader",
          options := Value.str (jsonStringify useLoaderPayload) } ] } ]

/-! ## Vocabulary for stating the properties -/

/-- The steps of a load that runs to its end, in order. -/
def fullTrace (dir : String) (manifestPlugin compilationLoaderPlugin : Value) : List Event :=
  [ Event.requireModule "node:path",
    Event.resolve "@rspack-template/binding",
    Event.setEnv "RSPACK_BINDING" dir,
    Event.requireModule "@rspack-template/binding",
    Event.call "registerCompilationLoaderPlugin" [],
    Event.call "registerManifestPlugin" [],
    Event.requireModule "@rspack/core",
    Event.createNativePlugin "ManifestPlugin" Resolver.manifestResolver,
    Event.defineProperty "ManifestPlugin" manifestPlugin,
    Event.createNativePlugin "CompilationLoaderPlugin" Resolver.compilationLoaderResolver,
    Event.defineProperty "CompilationLoaderPlugin" compilationLoaderPlugin ]

/-- The keys of the core export that the module body defines. -/
def pluginKeys : List String := ["ManifestPlugin", "CompilationLoaderPlugin"]

/-- The own keys of an object other than the two plugin keys, in order. -/
def otherKeys (o : Obj) : List String :=
  o.ownKeys.filter (fun k => !pluginKeys.contains k)

/-- The write of the environment variable `key`. -/
def isSetEnv (key : String) : Event → Bool
  | Event.setEnv k _ => k == key
  | _ => false

/-- The load of the module `name`. -/
def isRequire (name : String) : Event → Bool
  | Event.requireModule n => n == name
  | _ => false

/-- A call of the binding's function `fn`, with any arguments. -/
def isCall (fn : String) : Event → Bool
  | Event.call f _ => f == fn
  | _ => false

/-- A `createNativePlugin` call for the plugin `name`, with any resolver. -/
def isCreate (name : String) : Event → Bool
  | Event.createNativePlugin n _ => n == name
  | _ => false

/-- Any `createNativePlugin` call. -/
def isAnyCreate : Event → Bool
  | Event.createNativePlugin _ _ => true
  | _ => false

/-- Any `Object.defineProperty` call. -/
def isDefine : Event → Bool
  | Event.defineProperty _ _ => true
  | _ => false

/-- The resolver that a load handed to `createNativePlugin` for the plugin
`name`, read off its steps. -/
def resolverPassedFor (tr : List Event) (name : String) : Option Resolver :=
  tr.findSome? (fun ev =>
    match ev with
    | Event.createNativePlugin n r => if n = name then some r else none
    | _ => none)

/-- The positions, counted from `n`, of the steps that satisfy `p`. -/
def positionsFrom (p : Event → Bool) : Nat → List Event → List Nat
  | _, [] => []
  | n, e :: es => if p e then n :: positionsFrom p (n + 1) es else positionsFrom p (n + 1) es

def positions (p : Event → Bool) (tr : List Event) : List Nat :=
  positionsFrom p 0 tr

/-- Both kinds of step occur in `tr`, and every `a` step comes before every
`b` step. -/
def happensBefore (tr : List Event) (a b : Event → Bool) : Bool :=
  !(positions a tr).isEmpty && !(positions b tr).isEmpty &&
    (positions a tr).all (fun i => (positions b tr).all (fun j => decide (i < j)))

/-- The binding function that registers the plugin `name`
(`lib/index.js`, lines 7-11). -/
def registrationOf (name : String) : String :=
  "register" ++ name

/-- The world of a load in which both registration calls return: `w` with the
two return values replaced by `r1` and `r2`. -/
def World.withRegistrationResults (w : World) (r1 r2 : Value) : World :=
  { w with
    registerCompilationLoaderPlugin := fun _ => Except.ok r1
    registerManifestPlugin := fun _ => Except.ok r2 }

/-! ## Sample inputs -/

/-- A world in which every outside call returns. -/
def sampleWorld : World :=
  { resolve := fun name =>
      if name = "@rspack-template/binding" then
        Except.ok "/app/node_modules/@rspack-template/binding/binding.js"
      else Except.error (JsError.thrown (Value.obj 9))
    dirname := fun p =>
      if p = "/app/node_modules/@rspack-template/binding/binding.js" then
        "/app/node_modules/@rspack-template/binding"
      else "."
    require := fun name => if name = "@rspack/core" then Except.ok (Value.obj 1)
      else Except.ok (Value.obj 2)
    registerCompilationLoaderPlugin := fun _ => Except.ok Value.undefined
    registerManifestPlugin := fun _ => Except.ok Value.undefined
    createNativePlugin := fun name _ =>
      if name = "ManifestPlugin" then Except.ok (Value.obj 10) else Except.ok (Value.obj 11) }

/-- A world in which the binding package cannot be resolved. -/
def unresolvedWorld : World :=
  { sampleWorld with resolve := fun _ => Except.error (JsError.thrown (Value.obj 9)) }

/-- An environment in which `RSPACK_BINDING` already has a value. -/
def sampleEnv : String → Option String :=
  fun k => if k = "RSPACK_BINDING" then some "/old" else none

/-- A core export with two ordinary properties. -/
def sampleCore : Obj :=
  { props := [("rspack", Property.data (Value.obj 1) true true true),
              ("experiments", Property.data (Value.obj 3) true true true)]
    extensible := true }

/-- The state in which the load of `sampleWorld` ends. -/
def sampleFinal : State :=
  { env := fun k =>
      if k = "RSPACK_BINDING" then some "/app/node_modules/@rspack-template/binding"
      else sampleEnv k
    core :=
      { props := [("rspack", Property.data (Value.obj 1) true true true),
                  ("experiments", Property.data (Value.obj 3) true true true),
                  ("ManifestPlugin", Property.data (Value.obj 10) false false false),
                  ("CompilationLoaderPlugin", Property.data (Value.obj 11) false false false)]
        extensible := true }
    trace := fullTrace "/app/node_modules/@rspack-template/binding" (Value.obj 10) (Value.obj 11) }

/-! ## Facts about the object model -/

theorem getOwn_append_single_ne (ps : List (String × Property)) (k key : String) (q : Property)
    (h : key ≠ k) : getOwn (ps ++ [(k, q)]) key = getOwn ps key := by
  induction ps with
  | nil => simp [getOwn, Ne.symm h]
  | cons kp rest ih =>
    obtain ⟨k0, p0⟩ := kp
    simp [getOwn, ih]

theorem getOwn_append_single_self (ps : List (String × Property)) (k : String) (q : Property)
    (h : getOwn ps k = none) : getOwn (ps ++ [(k, q)]) k = some q := by
  induction ps with
  | nil => simp [getOwn]
  | cons kp rest ih =>
    obtain ⟨k0, p0⟩ := kp
    simp only [getOwn] at h
    by_cases hk : k0 = k
    · simp [hk] at h
    · simp only [hk, if_false] at h
      simp [getOwn, hk, ih h]

theorem getOwn_replaceOwn_ne (ps : List (String × Property)) (k key : String) (q : Property)
    (h : key ≠ k) : getOwn (replaceOwn ps k q) key = getOwn ps key := by
  induction ps with
  | nil => simp [replaceOwn, getOwn]
  | cons kp rest ih =>
    obtain ⟨k0, p0⟩ := kp
    by_cases hk : k0 = k
    · subst hk
      simp [replaceOwn, getOwn, Ne.symm h]
    · simp only [replaceOwn, hk, if_false, getOwn, ih]

theorem getOwn_replaceOwn_self (ps : List (String × Property)) (k : String) (p q : Property)
    (h : getOwn ps k = some p) : getOwn (replaceOwn ps k q) k = some q := by
  induction ps with
  | nil => simp [getOwn] at h
  | cons kp rest ih =>
    obtain ⟨k0, p0⟩ := kp
    by_cases hk : k0 = k
    · simp [replaceOwn, getOwn, hk]
    · simp only [getOwn, hk, if_false] at h
      simp only [replaceOwn, hk, if_false, getOwn, ih h]

theorem map_fst_replaceOwn (ps : List (String × Property)) (k : String) (q : Property) :
    (replaceOwn ps k q).map (fun kp => kp.1) = ps.map (fun kp => kp.1) := by
  induction ps with
  | nil => simp [replaceOwn]
  | cons kp rest ih =>
    obtain ⟨k0, p0⟩ := kp
    by_cases hk : k0 = k
    · simp [replaceOwn, hk]
    · simp [replaceOwn, hk, ih]

/-- A successful `defineValue` leaves every other key as it was. -/
theorem defineValue_frame (o o1 : Obj) (k : String) (v : Value)
    (h : o.defineValue k v = some o1) (key : String) (hne : key ≠ k) :
    getOwn o1.props key = getOwn o.props key := by
  unfold Obj.defineValue at h
  split at h
  · split at h
    · cases h; exact getOwn_append_single_ne _ _ _ _ hne
    · cases h
  · split at h
    · cases h
    · cases h; exact getOwn_replaceOwn_ne _ _ _ _ hne
  · split at h
    · cases h
    · cases h; exact getOwn_replaceOwn_ne _ _ _ _ hne

/-- A successful `defineValue` stores a data property holding the value. -/
theorem defineValue_value (o o1 : Obj) (k : String) (v : Value)
    (h : o.defineValue k v = some o1) :
    ∃ w e c, getOwn o1.props k = some (Property.data v w e c) := by
  unfold Obj.defineValue at h
  split at h
  · rename_i hnone
    split at h
    · cases h; exact ⟨false, false, false, getOwn_append_single_self _ _ _ hnone⟩
    · cases h
  · rename_i cur w e c hsome
    split at h
    · cases h
    · cases h; exact ⟨w, e, c, getOwn_replaceOwn_self _ _ _ _ hsome⟩
  · rename_i g st e c hsome
    split at h
    · cases h
    · cases h; exact ⟨false, e, c, getOwn_replaceOwn_self _ _ _ _ hsome⟩

theorem defineValue_extensible (o o1 : Obj) (k : String) (v : Value)
    (h : o.defineValue k v = some o1) : o1.extensible = o.extensible := by
  unfold Obj.defineValue at h
  split at h
  · split at h
    · cases h; rfl
    · cases h
  · split at h
    · cases h
    · cases h; rfl
  · split at h
    · cases h
    · cases h; rfl

/-- On an object without the key, `defineValue` succeeds exactly when the object
is extensible, and the new property has all three attributes `false`. -/
theorem defineValue_fresh (o o1 : Obj) (k : String) (v : Value)
    (hnone : getOwn o.props k = none) (h : o.defineValue k v = some o1) :
    o1.props = o.props ++ [(k, Property.data v false false false)] := by
  unfold Obj.defineValue at h
  rw [hnone] at h
  simp only at h
  split at h
  · cases h; rfl
  · cases h

theorem getOwn_none_not_mem (ps : List (String × Property)) (k : String)
    (h : getOwn ps k = none) : ∀ kp ∈ ps, kp.1 ≠ k := by
  induction ps with
  | nil => simp
  | cons kp rest ih =>
    obtain ⟨k0, p0⟩ := kp
    by_cases hk : k0 = k
    · simp [getOwn, hk] at h
    · simp only [getOwn, hk, if_false] at h
      intro kp1 hmem
      rcases List.mem_cons.mp hmem with rfl | hrest
      · exact hk
      · exact ih h kp1 hrest

/-! ## The runs of the module body -/

/-- A load runs to its end exactly along one path: every outside call returns
and both property definitions are accepted. -/
theorem loadModule_ok (w : World) (env : String → Option String) (core : Obj)
    (exp : Value) (s1 : State) (h : loadModule w env core = (Except.ok exp, s1)) :
    ∃ p b r1 r2 m cl o1 o2,
      w.resolve "@rspack-template/binding" = Except.ok p ∧
      w.require "@rspack-template/binding" = Except.ok b ∧
      w.registerCompilationLoaderPlugin [] = Except.ok r1 ∧
      w.registerManifestPlugin [] = Except.ok r2 ∧
      w.require "@rspack/core" = Except.ok exp ∧
      w.createNativePlugin "ManifestPlugin" Resolver.manifestResolver = Except.ok m ∧
      w.createNativePlugin "CompilationLoaderPlugin" Resolver.compilationLoaderResolver
        = Except.ok cl ∧
      core.defineValue "ManifestPlugin" m = some o1 ∧
      o1.defineValue "CompilationLoaderPlugin" cl = some o2 ∧
      s1.core = o2 ∧
      s1.env = (fun k => if k = "RSPACK_BINDING" then some (w.dirname p) else env k) ∧
      s1.trace = fullTrace (w.dirname p) m cl := by
  unfold loadModule load at h
  cases hp : w.resolve "@rspack-template/binding" with
  | error e => simp [hp] at h
  | ok p =>
  simp only [hp] at h
  unfold registerAndDefine at h
  cases hb : w.require "@rspack-template/binding" with
  | error e => simp [hb] at h
  | ok b =>
  cases hr1 : w.registerCompilationLoaderPlugin [] with
  | error e => simp [hb, hr1] at h
  | ok r1 =>
  cases hr2 : w.registerManifestPlugin [] with
  | error e => simp [hb, hr1, hr2] at h
  | ok r2 =>
  cases hc : w.require "@rspack/core" with
  | error e => simp [hb, hr1, hr2, hc] at h
  | ok c =>
  simp only [hb, hr1, hr2, hc] at h
  unfold definePlugins at h
  cases hm : w.createNativePlugin "ManifestPlugin" Resolver.manifestResolver with
  | error e => simp [hm] at h
  | ok m =>
  simp only [hm] at h
  unfold defineOnCore at h
  simp only [State.emit, State.setEnv, initialState] at h
  cases ho1 : core.defineValue "ManifestPlugin" m with
  | none => simp [ho1] at h
  | some o1 =>
  simp only [ho1] at h
  cases hcl : w.createNativePlugin "CompilationLoaderPlugin"
      Resolver.compilationLoaderResolver with
  | error e => simp [hcl] at h
  | ok cl =>
  simp only [hcl] at h
  cases ho2 : o1.defineValue "CompilationLoaderPlugin" cl with
  | none => simp [ho2] at h
  | some o2 =>
  simp only [ho2, Prod.mk.injEq, Except.ok.injEq] at h
  obtain ⟨hexp, hs⟩ := h
  subst hexp
  subst hs
  exact ⟨p, b, r1, r2, m, cl, o1, o2, rfl, rfl, rfl, rfl, rfl, rfl, rfl, ho1, ho2, rfl, rfl, rfl⟩

theorem defineValue_otherKeys (o o1 : Obj) (k : String) (v : Value)
    (hk : k ∈ pluginKeys)
    (h : o.defineValue k v = some o1) : otherKeys o1 = otherKeys o := by
  unfold Obj.defineValue at h
  split at h
  · split at h
    · cases h; simp [otherKeys, Obj.ownKeys, List.filter_append, hk]
    · cases h
  · split at h
    · cases h
    · cases h; simp [otherKeys, Obj.ownKeys, map_fst_replaceOwn]
  · split at h
    · cases h
    · cases h; simp [otherKeys, Obj.ownKeys, map_fst_replaceOwn]

/-- What one `Object.defineProperty(core, key, { value })` leaves alone. -/
theorem defineOnCore_frame (s : State) (k : String) (v : Value)
    (hk : k ∈ pluginKeys) :
    (defineOnCore s k v).2.env = s.env ∧
    (defineOnCore s k v).2.core.extensible = s.core.extensible ∧
    otherKeys (defineOnCore s k v).2.core = otherKeys s.core ∧
    ∀ key, key ≠ k →
      getOwn (defineOnCore s k v).2.core.props key = getOwn s.core.props key := by
  unfold defineOnCore
  simp only [State.emit]
  cases h : s.core.defineValue k v with
  | none => simp
  | some o =>
    exact ⟨rfl, defineValue_extensible _ _ _ _ h, defineValue_otherKeys _ _ _ _ hk h,
      fun key hne => defineValue_frame _ _ _ _ h key hne⟩

/-- What the second half of the module body leaves alone, however it ends. -/
theorem definePlugins_frame (w : World) (c : Value) (s : State) :
    (definePlugins w c s).2.env = s.env ∧
    (definePlugins w c s).2.core.extensible = s.core.extensible ∧
    otherKeys (definePlugins w c s).2.core = otherKeys s.core ∧
    ∀ key, key ≠ "ManifestPlugin" → key ≠ "CompilationLoaderPlugin" →
      getOwn (definePlugins w c s).2.core.props key = getOwn s.core.props key := by
  unfold definePlugins
  cases hm : w.createNativePlugin "ManifestPlugin" Resolver.manifestResolver with
  | error e => simp [State.emit]
  | ok m =>
  simp only
  have f1 := defineOnCore_frame
    (s.emit (Event.createNativePlugin "ManifestPlugin" Resolver.manifestResolver))
    "ManifestPlugin" m (by simp [pluginKeys])
  rcases hd1 : defineOnCore
    (s.emit (Event.createNativePlugin "ManifestPlugin" Resolver.manifestResolver))
    "ManifestPlugin" m with ⟨r1, s2⟩
  rw [hd1] at f1
  simp only [State.emit] at f1
  cases r1 with
  | error e => exact ⟨f1.1, f1.2.1, f1.2.2.1, fun key h1 _ => f1.2.2.2 key h1⟩
  | ok u =>
  cases u
  simp only
  cases hcl : w.createNativePlugin "CompilationLoaderPlugin"
      Resolver.compilationLoaderResolver with
  | error e =>
    simp only [State.emit]
    exact ⟨f1.1, f1.2.1, f1.2.2.1, fun key h1 _ => f1.2.2.2 key h1⟩
  | ok cl =>
  simp only
  have f2 := defineOnCore_frame
    (s2.emit (Event.createNativePlugin "CompilationLoaderPlugin"
      Resolver.compilationLoaderResolver))
    "CompilationLoaderPlugin" cl (by simp [pluginKeys])
  rcases hd2 : defineOnCore
    (s2.emit (Event.createNativePlugin "CompilationLoaderPlugin"
      Resolver.compilationLoaderResolver))
    "CompilationLoaderPlugin" cl with ⟨r2, s4⟩
  rw [hd2] at f2
  simp only [State.emit] at f2
  have done : s4.env = s.env ∧ s4.core.extensible = s.core.extensible ∧
      otherKeys s4.core = otherKeys s.core ∧
      ∀ key, key ≠ "ManifestPlugin" → key ≠ "CompilationLoaderPlugin" →
        getOwn s4.core.props key = getOwn s.core.props key :=
    ⟨f2.1.trans f1.1, f2.2.1.trans f1.2.1, f2.2.2.1.trans f1.2.2.1,
      fun key h1 h2 => (f2.2.2.2 key h2).trans (f1.2.2.2 key h1)⟩
  cases r2 with
  | error e => exact done
  | ok u => cases u; exact done

/-- What the module body after line 3 leaves alone, however it ends. -/
theorem registerAndDefine_frame (w : World) (s : State) :
    (registerAndDefine w s).2.env = s.env ∧
    (registerAndDefine w s).2.core.extensible = s.core.extensible ∧
    otherKeys (registerAndDefine w s).2.core = otherKeys s.core ∧
    ∀ key, key ≠ "ManifestPlugin" → key ≠ "CompilationLoaderPlugin" →
      getOwn (registerAndDefine w s).2.core.props key = getOwn s.core.props key := by
  unfold registerAndDefine
  cases hb : w.require "@rspack-template/binding" with
  | error e => simp [State.emit]
  | ok b =>
  cases hr1 : w.registerCompilationLoaderPlugin [] with
  | error e => simp [State.emit]
  | ok r1 =>
  cases hr2 : w.registerManifestPlugin [] with
  | error e => simp [State.emit]
  | ok r2 =>
  cases hc : w.require "@rspack/core" with
  | error e => simp [State.emit]
  | ok c =>
  simp only
  exact definePlugins_frame w c _

/-- What a whole load leaves alone, however it ends. -/
theorem loadModule_frame (w : World) (env : String → Option String) (core : Obj) :
    (loadModule w env core).2.core.extensible = core.extensible ∧
    otherKeys (loadModule w env core).2.core = otherKeys core ∧
    ∀ key, key ≠ "ManifestPlugin" → key ≠ "CompilationLoaderPlugin" →
      getOwn (loadModule w env core).2.core.props key = getOwn core.props key := by
  unfold loadModule load
  cases hp : w.resolve "@rspack-template/binding" with
  | error e => simp [State.emit, initialState]
  | ok p =>
  simp only
  exact (registerAndDefine_frame w _).2

/-- The steps of any load, however it ends, are an initial segment of the steps
of a full load. -/
theorem loadModule_trace_initial (w : World) (env : String → Option String) (core : Obj) :
    ∃ dir m cl, (loadModule w env core).2.trace <+: fullTrace dir m cl := by
  unfold loadModule load
  cases hp : w.resolve "@rspack-template/binding" with
  | error e =>
    exact ⟨"", Value.undefined, Value.undefined, by simp [State.emit, initialState, fullTrace]⟩
  | ok p =>
  simp only
  unfold registerAndDefine
  cases hb : w.require "@rspack-template/binding" with
  | error e =>
    exact ⟨w.dirname p, Value.undefined, Value.undefined,
      by simp [State.emit, State.setEnv, initialState, fullTrace]⟩
  | ok b =>
  cases hr1 : w.registerCompilationLoaderPlugin [] with
  | error e =>
    exact ⟨w.dirname p, Value.undefined, Value.undefined,
      by simp [State.emit, State.setEnv, initialState, fullTrace]⟩
  | ok r1 =>
  cases hr2 : w.registerManifestPlugin [] with
  | error e =>
    exact ⟨w.dirname p, Value.undefined, Value.undefined,
      by simp [State.emit, State.setEnv, initialState, fullTrace]⟩
  | ok r2 =>
  cases hc : w.require "@rspack/core" with
  | error e =>
    exact ⟨w.dirname p, Value.undefined, Value.undefined,
      by simp [State.emit, State.setEnv, initialState, fullTrace]⟩
  | ok c =>
  simp only
  unfold definePlugins
  cases hm : w.createNativePlugin "ManifestPlugin" Resolver.manifestResolver with
  | error e =>
    exact ⟨w.dirname p, Value.undefined, Value.undefined,
      by simp [State.emit, State.setEnv, initialState, fullTrace]⟩
  | ok m =>
  simp only
  unfold defineOnCore
  simp only [State.emit, State.setEnv, initialState]
  cases ho1 : core.defineValue "ManifestPlugin" m with
  | none =>
    exact ⟨w.dirname p, m, Value.undefined, by simp [fullTrace]⟩
  | some o1 =>
  simp only
  cases hcl : w.createNativePlugin "CompilationLoaderPlugin"
      Resolver.compilationLoaderResolver with
  | error e =>
    exact ⟨w.dirname p, m, Value.undefined, by simp [fullTrace]⟩
  | ok cl =>
  simp only
  cases ho2 : o1.defineValue "CompilationLoaderPlugin" cl with
  | none => exact ⟨w.dirname p, m, cl, by simp [fullTrace]⟩
  | some o2 => exact ⟨w.dirname p, m, cl, by simp [fullTrace]⟩

/-- In an initial segment of a full load, a wrapper is created only after the
registration call of its plugin. -/
theorem segment_wrapper_after_registration (tr : List Event) (dir : String) (m cl : Value)
    (hpre : tr <+: fullTrace dir m cl) (i : Nat) (name : String) (r : Resolver)
    (hi : tr[i]? = some (Event.createNativePlugin name r)) :
    ∃ j : Nat, j < i ∧ tr[j]? = some (Event.call (registrationOf name) []) := by
  obtain ⟨t, ht⟩ := hpre
  have hlt : i < tr.length := by
    rcases Nat.lt_or_ge i tr.length with h | h
    · exact h
    · rw [List.getElem?_eq_none h] at hi; cases hi
  have hfull : ∀ j, j < tr.length → (fullTrace dir m cl)[j]? = tr[j]? := by
    intro j hj
    rw [← ht, List.getElem?_append_left hj]
  have hif := hfull i hlt
  rw [hi] at hif
  have key : (i = 7 ∧ name = "ManifestPlugin") ∨ (i = 9 ∧ name = "CompilationLoaderPlugin") := by
    unfold fullTrace at hif
    rcases i with _ | _ | _ | _ | _ | _ | _ | _ | _ | _ | _ | i
    all_goals simp at hif
    · exact Or.inl ⟨rfl, hif.1.symm⟩
    · exact Or.inr ⟨rfl, hif.1.symm⟩
  rcases key with ⟨rfl, rfl⟩ | ⟨rfl, rfl⟩
  · refine ⟨5, by omega, ?_⟩
    rw [← hfull 5 (by omega)]
    rfl
  · refine ⟨4, by omega, ?_⟩
    rw [← hfull 4 (by omega)]
    rfl

set_option maxRecDepth 100000

/-! ## The claims -/

/-- Claim C1, as amended: in a load that ran to its end, the resolver handed to
`createNativePlugin` for `ManifestPlugin` and the one handed to it for
`CompilationLoaderPlugin` each return their first argument itself, whatever
that value is (`undefined` when there is no argument), and leave the state as
they found it.  The options that reach the native side are what `@rspack/core`
makes of that return value: the argument of `new ManifestPlugin(v)` /
`new CompilationLoaderPlugin(v)` itself when `v` is neither `undefined` nor
`null`, and `false` when it is `undefined` or `null` or when the constructor
is called without an argument. -/
theorem resolver_forwards_options (w : World) (env : String → Option String) (core : Obj)
    (exp : Value) (s1 : State) (h : loadModule w env core = (Except.ok exp, s1))
    (v : Value) (rest : List Value) (s : State) :
    resolverPassedFor s1.trace "ManifestPlugin" = some Resolver.manifestResolver ∧
    resolverPassedFor s1.trace "CompilationLoaderPlugin"
      = some Resolver.compilationLoaderResolver ∧
    callResolver Resolver.manifestResolver (v :: rest) s = (Except.ok v, s) ∧
    callResolver Resolver.compilationLoaderResolver (v :: rest) s = (Except.ok v, s) ∧
    callResolver Resolver.manifestResolver [] s = (Except.ok Value.undefined, s) ∧
    callResolver Resolver.compilationLoaderResolver [] s = (Except.ok Value.undefined, s) ∧
    (∀ pack : Value → Value,
      nativeOptions pack "ManifestPlugin" Resolver.manifestResolver (v :: rest) s
        = (Except.ok ("ManifestPlugin", pack v), s) ∧
      nativeOptions pack "CompilationLoaderPlugin" Resolver.compilationLoaderResolver
        (v :: rest) s = (Except.ok ("CompilationLoaderPlugin", pack v), s)) ∧
    (v ≠ Value.undefined → v ≠ Value.null →
      nativeOptions nullishToFalse "ManifestPlugin" Resolver.manifestResolver (v :: rest) s
        = (Except.ok ("ManifestPlugin", v), s) ∧
      nativeOptions nullishToFalse "CompilationLoaderPlugin"
        Resolver.compilationLoaderResolver (v :: rest) s
        = (Except.ok ("CompilationLoaderPlugin", v), s)) ∧
    (v = Value.undefined ∨ v = Value.null →
      nativeOptions nullishToFalse "ManifestPlugin" Resolver.manifestResolver (v :: rest) s
        = (Except.ok ("ManifestPlugin", Value.bool false), s) ∧
      nativeOptions nullishToFalse "CompilationLoaderPlugin"
        Resolver.compilationLoaderResolver (v :: rest) s
        = (Except.ok ("CompilationLoaderPlugin", Value.bool false), s)) ∧
    nativeOptions nullishToFalse "ManifestPlugin" Resolver.manifestResolver [] s
      = (Except.ok ("ManifestPlugin", Value.bool false), s) ∧
    nativeOptions nullishToFalse "CompilationLoaderPlugin"
      Resolver.compilationLoaderResolver [] s
      = (Except.ok ("CompilationLoaderPlugin", Value.bool false), s) := by
  obtain ⟨p, b, r1, r2, m, cl, o1, o2, -, -, -, -, -, -, -, -, -, -, -, htr⟩ :=
    loadModule_ok w env core exp s1 h
  rw [htr]
  refine ⟨rfl, rfl, rfl, rfl, rfl, rfl, fun _ => ⟨rfl, rfl⟩, ?_, ?_, rfl, rfl⟩
  · intro hu hn
    cases v <;> first | exact absurd rfl hu | exact absurd rfl hn | exact ⟨rfl, rfl⟩
  · intro hv
    rcases hv with rfl | rfl <;> exact ⟨rfl, rfl⟩

/-- The sample load runs to its end; the object `Value.obj 5` given to either
constructor reaches the native side as that same object. -/
theorem resolver_forwards_options_witness :
    loadModule sampleWorld sampleEnv sampleCore = (Except.ok (Value.obj 1), sampleFinal) ∧
    Value.obj 5 ≠ Value.undefined ∧ Value.obj 5 ≠ Value.null ∧
    resolverPassedFor sampleFinal.trace "ManifestPlugin" = some Resolver.manifestResolver ∧
    callResolver Resolver.manifestResolver [Value.obj 5] sampleFinal
      = (Except.ok (Value.obj 5), sampleFinal) ∧
    nativeOptions nullishToFalse "ManifestPlugin" Resolver.manifestResolver [Value.obj 5]
      sampleFinal = (Except.ok ("ManifestPlugin", Value.obj 5), sampleFinal) ∧
    nativeOptions nullishToFalse "CompilationLoaderPlugin"
      Resolver.compilationLoaderResolver [Value.obj 5] sampleFinal
      = (Except.ok ("CompilationLoaderPlugin", Value.obj 5), sampleFinal) :=
  ⟨rfl, by decide, by decide,
    (resolver_forwards_options sampleWorld sampleEnv sampleCore _ _ rfl
      (Value.obj 5) [] sampleFinal).1,
    (resolver_forwards_options sampleWorld sampleEnv sampleCore _ _ rfl
      (Value.obj 5) [] sampleFinal).2.2.1,
    ((resolver_forwards_options sampleWorld sampleEnv sampleCore _ _ rfl
      (Value.obj 5) [] sampleFinal).2.2.2.2.2.2.2.1 (by decide) (by decide)).1,
    ((resolver_forwards_options sampleWorld sampleEnv sampleCore _ _ rfl
      (Value.obj 5) [] sampleFinal).2.2.2.2.2.2.2.1 (by decide) (by decide)).2⟩

/-- Claim C1 as written fails at `v = undefined`: for `new ManifestPlugin(undefined)`
and `new CompilationLoaderPlugin(undefined)` the resolver returns `undefined`,
and the options that reach the native side are `false`, which is not the
argument. -/
theorem undefined_options_reach_native_as_false :
    (callResolver Resolver.manifestResolver [Value.undefined] sampleFinal).1
      = Except.ok Value.undefined ∧
    (nativeOptions nullishToFalse "ManifestPlugin" Resolver.manifestResolver
      [Value.undefined] sampleFinal).1 = Except.ok ("ManifestPlugin", Value.bool false) ∧
    (nativeOptions nullishToFalse "CompilationLoaderPlugin"
      Resolver.compilationLoaderResolver [Value.undefined] sampleFinal).1
      = Except.ok ("CompilationLoaderPlugin", Value.bool false) ∧
    (nativeOptions nullishToFalse "ManifestPlugin" Resolver.manifestResolver
      [Value.undefined] sampleFinal).1 ≠ Except.ok ("ManifestPlugin", Value.undefined) ∧
    (nativeOptions nullishToFalse "CompilationLoaderPlugin"
      Resolver.compilationLoaderResolver [Value.undefined] sampleFinal).1
      ≠ Except.ok ("CompilationLoaderPlugin", Value.undefined) := by
  refine ⟨rfl, rfl, rfl, ?_, ?_⟩
  · intro hc
    have hv : ("ManifestPlugin", Value.bool false) = ("ManifestPlugin", Value.undefined) :=
      Except.ok.inj hc
    exact Value.noConfusion (Prod.mk.inj hv).2
  · intro hc
    have hv : ("CompilationLoaderPlugin", Value.bool false)
        = ("CompilationLoaderPlugin", Value.undefined) := Except.ok.inj hc
    exact Value.noConfusion (Prod.mk.inj hv).2

/-- Claim C2: after a load that ran to its end, the module export is the value
`require('@rspack/core')` returned, and the core object holds under
`ManifestPlugin` the value `createNativePlugin('ManifestPlugin', resolver)`
returned and under `CompilationLoaderPlugin` the value
`createNativePlugin('CompilationLoaderPlugin', resolver)` returned. -/
theorem export_is_core_with_plugins (w : World) (env : String → Option String) (core : Obj)
    (exp : Value) (s1 : State) (h : loadModule w env core = (Except.ok exp, s1)) :
    w.require "@rspack/core" = Except.ok exp ∧
    ∃ m cl,
      w.createNativePlugin "ManifestPlugin" Resolver.manifestResolver = Except.ok m ∧
      w.createNativePlugin "CompilationLoaderPlugin" Resolver.compilationLoaderResolver
        = Except.ok cl ∧
      (s1.core.getOwnProperty "ManifestPlugin").bind Property.value? = some m ∧
      (s1.core.getOwnProperty "CompilationLoaderPlugin").bind Property.value? = some cl := by
  obtain ⟨p, b, r1, r2, m, cl, o1, o2, -, -, -, -, hc, hm, hcl, ho1, ho2, hcore, -, -⟩ :=
    loadModule_ok w env core exp s1 h
  refine ⟨hc, m, cl, hm, hcl, ?_, ?_⟩
  · obtain ⟨wr, e, c, hv⟩ := defineValue_value _ _ _ _ ho1
    have hfr := defineValue_frame _ _ _ _ ho2 "ManifestPlugin" (by decide)
    rw [hcore, Obj.getOwnProperty, hfr, hv]
    rfl
  · obtain ⟨wr, e, c, hv⟩ := defineValue_value _ _ _ _ ho2
    rw [hcore, Obj.getOwnProperty, hv]
    rfl

/-- The sample load runs to its end and exposes each wrapper under its own name. -/
theorem export_is_core_with_plugins_witness :
    loadModule sampleWorld sampleEnv sampleCore = (Except.ok (Value.obj 1), sampleFinal) ∧
    (sampleWorld.require "@rspack/core" = Except.ok (Value.obj 1) ∧
    ∃ m cl,
      sampleWorld.createNativePlugin "ManifestPlugin" Resolver.manifestResolver
        = Except.ok m ∧
      sampleWorld.createNativePlugin "CompilationLoaderPlugin"
        Resolver.compilationLoaderResolver = Except.ok cl ∧
      (sampleFinal.core.getOwnProperty "ManifestPlugin").bind Property.value? = some m ∧
      (sampleFinal.core.getOwnProperty "CompilationLoaderPlugin").bind Property.value?
        = some cl) :=
  ⟨rfl, export_is_core_with_plugins sampleWorld sampleEnv sampleCore _ _ rfl⟩

/-- Claim C3: a load that ran to its end has called
`registerCompilationLoaderPlugin` once and `registerManifestPlugin` once, each
with no arguments; and whatever the two calls return, the load ends with the
same result and the same state. -/
theorem registration_calls_once (w : World) (env : String → Option String) (core : Obj) :
    (∀ exp s1, loadModule w env core = (Except.ok exp, s1) →
      s1.trace.filter (isCall "registerCompilationLoaderPlugin")
        = [Event.call "registerCompilationLoaderPlugin" []] ∧
      s1.trace.filter (isCall "registerManifestPlugin")
        = [Event.call "registerManifestPlugin" []]) ∧
    (∀ r1 r2 r3 r4, loadModule (w.withRegistrationResults r1 r2) env core
        = loadModule (w.withRegistrationResults r3 r4) env core) := by
  refine ⟨?_, fun _ _ _ _ => rfl⟩
  intro exp s1 h
  obtain ⟨p, b, r1, r2, m, cl, o1, o2, -, -, -, -, -, -, -, -, -, -, -, htr⟩ :=
    loadModule_ok w env core exp s1 h
  rw [htr]
  exact ⟨rfl, rfl⟩

/-- The sample load runs to its end with one call of each registration function. -/
theorem registration_calls_once_witness :
    loadModule sampleWorld sampleEnv sampleCore = (Except.ok (Value.obj 1), sampleFinal) ∧
    sampleFinal.trace.filter (isCall "registerCompilationLoaderPlugin")
      = [Event.call "registerCompilationLoaderPlugin" []] ∧
    sampleFinal.trace.filter (isCall "registerManifestPlugin")
      = [Event.call "registerManifestPlugin" []] :=
  ⟨rfl, (registration_calls_once sampleWorld sampleEnv sampleCore).1 _ _ rfl⟩

/-- Claim C4: when `require.resolve('@rspack-template/binding')` returns the path
`p`, the load leaves `RSPACK_BINDING` equal to `path.dirname(p)`, whatever the
variable held before and however the rest of the load goes; so the variable
holds the directory, and not the path `p`, whenever the two differ. -/
theorem binding_env_is_dirname (w : World) (env : String → Option String) (core : Obj)
    (p : String) (hp : w.resolve "@rspack-template/binding" = Except.ok p) :
    (loadModule w env core).2.env "RSPACK_BINDING" = some (w.dirname p) ∧
    (w.dirname p ≠ p → (loadModule w env core).2.env "RSPACK_BINDING" ≠ some p) := by
  have henv : (loadModule w env core).2.env "RSPACK_BINDING" = some (w.dirname p) := by
    unfold loadModule load
    simp only [hp]
    rw [(registerAndDefine_frame w _).1]
    simp [State.emit, State.setEnv]
  refine ⟨henv, fun hne hcontra => ?_⟩
  rw [henv] at hcontra
  exact hne (Option.some.inj hcontra)

/-- In the sample load the variable, `/old` before, ends as the directory of the
resolved path. -/
theorem binding_env_is_dirname_witness :
    sampleWorld.resolve "@rspack-template/binding"
      = Except.ok "/app/node_modules/@rspack-template/binding/binding.js" ∧
    (loadModule sampleWorld sampleEnv sampleCore).2.env "RSPACK_BINDING"
      = some "/app/node_modules/@rspack-template/binding" :=
  ⟨rfl, (binding_env_is_dirname sampleWorld sampleEnv sampleCore _ rfl).1⟩

/-- Claim C5: however a load ends, every own property of the core export under
a key other than `ManifestPlugin` and `CompilationLoaderPlugin` is what it was
before, the own keys other than those two are the same keys in the same
order, and the object is as extensible as before. -/
theorem other_properties_unchanged (w : World) (env : String → Option String) (core : Obj) :
    (∀ key, key ≠ "ManifestPlugin" → key ≠ "CompilationLoaderPlugin" →
      (loadModule w env core).2.core.getOwnProperty key = core.getOwnProperty key) ∧
    otherKeys (loadModule w env core).2.core = otherKeys core ∧
    (loadModule w env core).2.core.extensible = core.extensible :=
  ⟨(loadModule_frame w env core).2.2, (loadModule_frame w env core).2.1,
    (loadModule_frame w env core).1⟩

/-- The sample load leaves the property `experiments` of the core export alone. -/
theorem other_properties_unchanged_witness :
    "experiments" ≠ "ManifestPlugin" ∧ "experiments" ≠ "CompilationLoaderPlugin" ∧
    (loadModule sampleWorld sampleEnv sampleCore).2.core.getOwnProperty "experiments"
      = some (Property.data (Value.obj 3) true true true) :=
  ⟨by decide, by decide,
    (other_properties_unchanged sampleWorld sampleEnv sampleCore).1 "experiments"
      (by decide) (by decide)⟩

/-- Claim C6, at the input a failed build hands to the callback (an error
object, `stats` undefined): both callbacks log the error and then still read
`stats.toString`, which throws a `TypeError`; and for every pair of arguments
the callback reads `stats`, whether or not `err` is truthy. -/
theorem callback_reads_stats_after_error (toStringOf : Value → Except JsError Value) :
    usePluginCallback toStringOf (Value.obj 7) Value.undefined
      = (Except.error JsError.typeError,
         [CallbackEvent.consoleError (Value.obj 7),
          CallbackEvent.readProperty Value.undefined "toString"]) ∧
    useLoaderCallback toStringOf (Value.obj 7) Value.undefined
      = (Except.error JsError.typeError,
         [CallbackEvent.consoleError (Value.obj 7),
          CallbackEvent.readProperty Value.undefined "toString"]) ∧
    (∀ err stats,
      CallbackEvent.readProperty stats "toString" ∈ (usePluginCallback toStringOf err stats).2 ∧
      CallbackEvent.readProperty stats "toString" ∈ (useLoaderCallback toStringOf err stats).2 ∧
      (CallbackEvent.consoleError err ∈ (usePluginCallback toStringOf err stats).2
        ↔ err.truthy = true) ∧
      (CallbackEvent.consoleError err ∈ (useLoaderCallback toStringOf err stats).2
        ↔ err.truthy = true)) := by
  refine ⟨rfl, rfl, ?_⟩
  intro err stats
  have hbody : CallbackEvent.readProperty stats "toString" ∈ (callbackBody toStringOf err stats).2 ∧
      (CallbackEvent.consoleError err ∈ (callbackBody toStringOf err stats).2
        ↔ err.truthy = true) := by
    unfold callbackBody
    cases stats <;> cases ht : err.truthy <;> simp <;>
      cases toStringOf _ <;> simp
  exact ⟨hbody.1, hbody.1, hbody.2, hbody.2⟩

/-- Claim C7: the `use-loader` example has one module rule with one loader,
`builtin:compilation-loader`, whose options are a string; `JSON.parse` of that
string gives back the object literal the script passed to `JSON.stringify`,
with `swc_options.config` holding `jsc.parser`, `jsc.transform`, `jsc.target`
and `module.type` as written and exactly the keys written. -/
theorem use_loader_rule_payload :
    useLoaderRules.length = 1 ∧
    useLoaderRules.map (fun r => r.use.map (fun u => u.loader))
      = [["builtin:compilation-loader"]] ∧
    ∃ text parsed config jsc,
      useLoaderRules.map (fun r => r.use.map (fun u => u.options)) = [[Value.str text]] ∧
      text = jsonStringify useLoaderPayload ∧
      text = "\x7b\"swc_options\":\x7b\"config\":\x7b\"jsc\":\x7b\"parser\":\x7b\"syntax\":\"ecmascript\",\"jsx\":false\x7d,\"transform\":\x7b\x7d,\"target\":\"es2015\"\x7d,\"module\":\x7b\"type\":\"commonjs\"\x7d\x7d\x7d\x7d" ∧
      jsonParse text = some parsed ∧
      parsed = useLoaderPayload ∧
      parsed.keys = ["swc_options"] ∧
      (parsed.get? "swc_options").map Json.keys = some ["config"] ∧
      (parsed.get? "swc_options").bind (fun o => o.get? "config") = some config ∧
      config.keys = ["jsc", "module"] ∧
      config.get? "jsc" = some jsc ∧
      jsc.keys = ["parser", "transform", "target"] ∧
      jsc.get? "parser"
        = some (Json.obj [("syntax", Json.str "ecmascript"), ("jsx", Json.bool false)]) ∧
      jsc.get? "transform" = some (Json.obj []) ∧
      jsc.get? "target" = some (Json.str "es2015") ∧
      config.get? "module" = some (Json.obj [("type", Json.str "commonjs")]) :=
  ⟨rfl, rfl, _, _, _, _, rfl, rfl, rfl, rfl, rfl, rfl, rfl, rfl, rfl, rfl, rfl, rfl, rfl, rfl,
    rfl⟩

/-- Claim C8: in a load that ran to its end, `RSPACK_BINDING` is written before
the binding module is loaded, `registerCompilationLoaderPlugin` is called
before `registerManifestPlugin`, both are called before `@rspack/core` is
loaded and before any `createNativePlugin` call, and the wrapper for
`ManifestPlugin` is created before the one for `CompilationLoaderPlugin`; and
in every load, however it ends, each `createNativePlugin` call comes after the
registration call of its plugin. -/
theorem load_order (w : World) (env : String → Option String) (core : Obj) :
    (∀ exp s1, loadModule w env core = (Except.ok exp, s1) →
      happensBefore s1.trace (isSetEnv "RSPACK_BINDING")
        (isRequire "@rspack-template/binding") = true ∧
      happensBefore s1.trace (isCall "registerCompilationLoaderPlugin")
        (isCall "registerManifestPlugin") = true ∧
      happensBefore s1.trace (isCall "registerCompilationLoaderPlugin")
        (isRequire "@rspack/core") = true ∧
      happensBefore s1.trace (isCall "registerManifestPlugin")
        (isRequire "@rspack/core") = true ∧
      happensBefore s1.trace (isCall "registerCompilationLoaderPlugin") isAnyCreate = true ∧
      happensBefore s1.trace (isCall "registerManifestPlugin") isAnyCreate = true ∧
      happensBefore s1.trace (isCreate "ManifestPlugin")
        (isCreate "CompilationLoaderPlugin") = true) ∧
    (∀ i name r,
      (loadModule w env core).2.trace[i]? = some (Event.createNativePlugin name r) →
      ∃ j : Nat, j < i ∧
        (loadModule w env core).2.trace[j]? = some (Event.call (registrationOf name) [])) := by
  constructor
  · intro exp s1 h
    obtain ⟨p, b, r1, r2, m, cl, o1, o2, -, -, -, -, -, -, -, -, -, -, -, htr⟩ :=
      loadModule_ok w env core exp s1 h
    rw [htr]
    exact ⟨rfl, rfl, rfl, rfl, rfl, rfl, rfl⟩
  · intro i name r hi
    obtain ⟨dir, m, cl, hpre⟩ := loadModule_trace_initial w env core
    exact segment_wrapper_after_registration _ dir m cl hpre i name r hi

/-- The sample load runs to its end; its tenth step creates the
`CompilationLoaderPlugin` wrapper, after the registration call of that plugin. -/
theorem load_order_witness :
    loadModule sampleWorld sampleEnv sampleCore = (Except.ok (Value.obj 1), sampleFinal) ∧
    sampleFinal.trace[9]?
      = some (Event.createNativePlugin "CompilationLoaderPlugin"
          Resolver.compilationLoaderResolver) ∧
    happensBefore sampleFinal.trace (isCall "registerManifestPlugin") isAnyCreate = true ∧
    ∃ j : Nat, j < 9 ∧
      (loadModule sampleWorld sampleEnv sampleCore).2.trace[j]?
        = some (Event.call (registrationOf "CompilationLoaderPlugin") []) :=
  ⟨rfl, rfl,
    ((load_order sampleWorld sampleEnv sampleCore).1 _ _ rfl).2.2.2.2.2.1,
    (load_order sampleWorld sampleEnv sampleCore).2 9 "CompilationLoaderPlugin"
      Resolver.compilationLoaderResolver rfl⟩

/-- Claim C9: when the core export has no own property `ManifestPlugin` or
`CompilationLoaderPlugin` before a load that runs to its end, both properties
are afterwards data properties with `writable`, `enumerable` and
`configurable` all false; neither key is among the enumerable own keys; and an assignment to
either is refused and leaves the object as it was. -/
theorem plugin_properties_frozen (w : World) (env : String → Option String) (core : Obj)
    (exp : Value) (s1 : State)
    (hm0 : core.getOwnProperty "ManifestPlugin" = none)
    (hc0 : core.getOwnProperty "CompilationLoaderPlugin" = none)
    (h : loadModule w env core = (Except.ok exp, s1)) :
    (∃ m cl,
      s1.core.getOwnProperty "ManifestPlugin" = some (Property.data m false false false) ∧
      s1.core.getOwnProperty "CompilationLoaderPlugin"
        = some (Property.data cl false false false)) ∧
    "ManifestPlugin" ∉ s1.core.enumerableKeys ∧
    "CompilationLoaderPlugin" ∉ s1.core.enumerableKeys ∧
    (∀ v, s1.core.assign "ManifestPlugin" v = (s1.core, false)) ∧
    (∀ v, s1.core.assign "CompilationLoaderPlugin" v = (s1.core, false)) := by
  obtain ⟨p, b, r1, r2, m, cl, o1, o2, -, -, -, -, -, -, -, ho1, ho2, hcore, -, -⟩ :=
    loadModule_ok w env core exp s1 h
  unfold Obj.getOwnProperty at hm0 hc0
  have hp1 := defineValue_fresh _ _ _ _ hm0 ho1
  have hc1 : getOwn o1.props "CompilationLoaderPlugin" = none := by
    rw [defineValue_frame _ _ _ _ ho1 "CompilationLoaderPlugin" (by decide)]
    exact hc0
  have hp2 := defineValue_fresh _ _ _ _ hc1 ho2
  have hgm : getOwn o2.props "ManifestPlugin" = some (Property.data m false false false) := by
    rw [defineValue_frame _ _ _ _ ho2 "ManifestPlugin" (by decide), hp1]
    exact getOwn_append_single_self _ _ _ hm0
  have hgc : getOwn o2.props "CompilationLoaderPlugin"
      = some (Property.data cl false false false) := by
    rw [hp2]
    exact getOwn_append_single_self _ _ _ hc1
  have hkeys : o2.enumerableKeys = core.enumerableKeys := by
    simp [Obj.enumerableKeys, hp2, hp1, List.filter_append, Property.enumerable]
  have hnm := getOwn_none_not_mem _ _ hm0
  have hnc := getOwn_none_not_mem _ _ hc0
  subst hcore
  refine ⟨⟨m, cl, hgm, hgc⟩, ?_, ?_, ?_, ?_⟩
  · rw [hkeys]
    intro hmem
    simp only [Obj.enumerableKeys, List.mem_map, List.mem_filter] at hmem
    obtain ⟨kp, ⟨hin, -⟩, hk⟩ := hmem
    exact hnm kp hin hk
  · rw [hkeys]
    intro hmem
    simp only [Obj.enumerableKeys, List.mem_map, List.mem_filter] at hmem
    obtain ⟨kp, ⟨hin, -⟩, hk⟩ := hmem
    exact hnc kp hin hk
  · intro v
    simp [Obj.assign, hgm]
  · intro v
    simp [Obj.assign, hgc]

/-- The sample core has neither key; after the sample load `ManifestPlugin` is not
enumerable and an assignment to it is refused. -/
theorem plugin_properties_frozen_witness :
    sampleCore.getOwnProperty "ManifestPlugin" = none ∧
    sampleCore.getOwnProperty "CompilationLoaderPlugin" = none ∧
    loadModule sampleWorld sampleEnv sampleCore = (Except.ok (Value.obj 1), sampleFinal) ∧
    "ManifestPlugin" ∉ sampleFinal.core.enumerableKeys ∧
    sampleFinal.core.assign "ManifestPlugin" (Value.num 5) = (sampleFinal.core, false) :=
  ⟨rfl, rfl, rfl,
    (plugin_properties_frozen sampleWorld sampleEnv sampleCore _ _ rfl rfl rfl).2.1,
    (plugin_properties_frozen sampleWorld sampleEnv sampleCore _ _ rfl rfl rfl).2.2.2.1 _⟩

/-- Claim C10: when `require.resolve('@rspack-template/binding')` throws `e`, the
load throws `e`; `process.env` and the core export are what they were, and
the load has made no registration call, no `createNativePlugin` call and no
`Object.defineProperty` call. -/
theorem resolve_failure_changes_nothing (w : World) (env : String → Option String)
    (core : Obj) (e : JsError)
    (hfail : w.resolve "@rspack-template/binding" = Except.error e) :
    (loadModule w env core).1 = Except.error e ∧
    (loadModule w env core).2.env = env ∧
    (loadModule w env core).2.core = core ∧
    (loadModule w env core).2.trace
      = [Event.requireModule "node:path", Event.resolve "@rspack-template/binding"] ∧
    (loadModule w env core).2.trace.filter
      (fun ev => isCall "registerCompilationLoaderPlugin" ev
        || isCall "registerManifestPlugin" ev || isAnyCreate ev || isDefine ev) = [] := by
  have hrun : loadModule w env core
      = (Except.error e,
         ((initialState env core).emit (Event.requireModule "node:path")).emit
           (Event.resolve "@rspack-template/binding")) := by
    unfold loadModule load
    simp only [hfail]
  rw [hrun]
  exact ⟨rfl, rfl, rfl, rfl, rfl⟩

/-- With an unresolvable binding the sample load throws what `require.resolve`
threw and `RSPACK_BINDING` keeps its old value. -/
theorem resolve_failure_changes_nothing_witness :
    unresolvedWorld.resolve "@rspack-template/binding"
      = Except.error (JsError.thrown (Value.obj 9)) ∧
    (loadModule unresolvedWorld sampleEnv sampleCore).1
      = Except.error (JsError.thrown (Value.obj 9)) ∧
    (loadModule unresolvedWorld sampleEnv sampleCore).2.env "RSPACK_BINDING" = some "/old" :=
  ⟨rfl, (resolve_failure_changes_nothing unresolvedWorld sampleEnv sampleCore _ rfl).1,
    congrFun (resolve_failure_changes_nothing unresolvedWorld sampleEnv sampleCore _ rfl).2.1
      "RSPACK_BINDING"⟩

end RspackBinding
